import Mathlib

/-!
Shallow embedding of `src/module/rules/rule-element/ae-like.ts`
(`AELikeRuleElement`): a deferred, ordered attribute-patching engine that
applies declarative change directives (multiply / add / downgrade / upgrade /
override) to an actor's hierarchical data tree, with construction-time
validation, phase-gated application, and an audit change log (`autoChanges`).

JavaScript runtime values are modelled by `JSValue`; numbers are modelled by
`Int` (all values exercised by the directives here are integers, and the
engine uses only `*`, `+`, `Math.min`, `Math.max`). The host document
utilities (`getProperty` / `setProperty`), which the source imports from the
host platform, are modelled from the spec's description of the data-tree
accessor. The placeholder resolver (`resolveInjectedProperties`), the value
resolver (`resolveValue`), and the predicate evaluator, which live in the
base class `RuleElementPF2e` outside the translated file, are opaque
parameters gathered in `Env`.
-/

namespace AELike

/-- A JavaScript runtime value as used by the rule element: numbers (modelled
by `Int`), strings, booleans, `null`, `undefined`, arrays, and plain objects
(association lists of fields). -/
inductive JSValue where
  | num (n : Int)
  | str (s : String)
  | bool (b : Bool)
  | null
  | undefined
  | arr (elems : List JSValue)
  | obj (fields : List (String × JSValue))
deriving Repr

/-- The JS `typeof` operator on modelled values: `typeof null` is `"object"`,
arrays and plain objects are both `"object"`. -/
def jsTypeof : JSValue → String
  | .num _ => "number"
  | .str _ => "string"
  | .bool _ => "boolean"
  | .null => "object"
  | .undefined => "undefined"
  | .arr _ => "object"
  | .obj _ => "object"

/-- `typeof v === "number"`. -/
def isNumber : JSValue → Bool
  | .num _ => true
  | _ => false

/-- `v === undefined`. -/
def isUndefined : JSValue → Bool
  | .undefined => true
  | _ => false

/-- `v === null`. -/
def isNull : JSValue → Bool
  | .null => true
  | _ => false

/-- `typeof v === "string"`. -/
def isString : JSValue → Bool
  | .str _ => true
  | _ => false

/-- The JS nullish-coalescing operator `v ?? dflt`. -/
def ncoalesce (v dflt : JSValue) : JSValue :=
  match v with
  | .undefined => dflt
  | .null => dflt
  | _ => v

/-- Numeric content of a value known to be a number (guards in the engine
ensure this is only consulted on `.num` values). -/
def numOf : JSValue → Int
  | .num n => n
  | _ => 0

/-- JS strict equality `===` restricted to the cases the translated code
exercises: primitives compare by content, operands of different runtime types
are never strictly equal. (Reference identity of composite values is not
needed here: the only strict comparison in the source pits a `typeof` string
against `undefined`.) -/
def jsStrictEqPrim : JSValue → JSValue → Bool
  | .num a, .num b => a == b
  | .str a, .str b => a == b
  | .bool a, .bool b => a == b
  | .null, .null => true
  | .undefined, .undefined => true
  | _, _ => false

/-- Field lookup in a plain object's association list. -/
def lookupField : List (String × JSValue) → String → Option JSValue
  | [], _ => none
  | (k, v) :: rest, key => if k = key then some v else lookupField rest key

/-- Field update (or insertion at the end) in a plain object's association
list. -/
def setField : List (String × JSValue) → String → JSValue → List (String × JSValue)
  | [], k, v => [(k, v)]
  | (k', v') :: rest, k, v =>
      if k' = k then (k, v) :: rest else (k', v') :: setField rest k v

/-- Modelled from the spec: the host's get-by-path data-tree accessor
(`getProperty` from the platform utilities, not part of the translated file),
walking dot-path segments; a missing segment or a non-object intermediate
yields `undefined`. -/
def getPropSegs : JSValue → List String → JSValue
  | v, [] => v
  | .obj fields, k :: ks =>
      match lookupField fields k with
      | some v => getPropSegs v ks
      | none => .undefined
  | _, _ :: _ => .undefined

/-- Split a character list at `'.'` separators, accumulating the current
segment in reverse (the recursion mirrors `path.split(".")`). -/
def splitDots : List Char → List Char → List String
  | [], acc => [String.mk acc.reverse]
  | c :: rest, acc =>
      if c = '.' then String.mk acc.reverse :: splitDots rest []
      else splitDots rest (c :: acc)

/-- `path.split(".")`. -/
def splitPath (s : String) : List String :=
  splitDots s.toList []

/-- `getProperty(object, path)`: the empty key resolves to `undefined`;
otherwise the dot-split path is walked. -/
def getProperty (tree : JSValue) (path : String) : JSValue :=
  if path = "" then .undefined else getPropSegs tree (splitPath path)

/-- Modelled from the spec: the host's set-by-path data-tree accessor
(`setProperty`), creating empty objects for missing intermediate segments and
leaving non-object targets untouched. -/
def setPropSegs : JSValue → List String → JSValue → JSValue
  | old, [], _ => old
  | old, [k], v =>
      match old with
      | .obj fields => .obj (setField fields k v)
      | other => other
  | old, k :: k2 :: ks, v =>
      match old with
      | .obj fields =>
          let child :=
            match lookupField fields k with
            | some c => c
            | none => JSValue.obj []
          .obj (setField fields k (setPropSegs child (k2 :: ks) v))
      | other => other

/-- `setProperty(object, path, value)` over the dot-split path. -/
def setProperty (tree : JSValue) (path : String) (v : JSValue) : JSValue :=
  setPropSegs tree (splitPath path) v

/-- A regex `\w` word character: alphanumeric or underscore. -/
def isWordChar (c : Char) : Bool := c.isAlphanum || c = '_'

/-- `path.replace(/\.\w+$/, "")`: remove a trailing `.segment` made of word
characters, if present; otherwise return the string unchanged. -/
def dropLastSegment (s : String) : String :=
  let rev := s.toList.reverse
  let seg := rev.takeWhile isWordChar
  if seg.isEmpty then s
  else
    match rev.drop seg.length with
    | '.' :: rest => String.mk rest.reverse
    | _ => s

/-- `path.replace(/\.?\w+\.\w+$/, "")`: remove the trailing two word-character
segments together with the dot between them and the optional dot before them,
if the pattern matches at the end; otherwise return the string unchanged. -/
def dropLastTwoSegments (s : String) : String :=
  let rev := s.toList.reverse
  let seg2 := rev.takeWhile isWordChar
  if seg2.isEmpty then s
  else
    match rev.drop seg2.length with
    | '.' :: rest1 =>
        let seg1 := rest1.takeWhile isWordChar
        if seg1.isEmpty then s
        else
          match rest1.drop seg1.length with
          | '.' :: rest2 => String.mk rest2.reverse
          | rest2 => String.mk rest2.reverse
    | _ => s

/-- Does `"undefined"` occur as a whole word starting at this position?
(`prev` is the character just before the position, if any.) -/
def undefTokenAt (prev : Option Char) (cs : List Char) : Bool :=
  cs.take 9 == "undefined".toList &&
    (match prev with
     | some c => !isWordChar c
     | none => true) &&
    (match cs.drop 9 with
     | c :: _ => !isWordChar c
     | [] => true)

/-- Scan for a whole-word occurrence of `"undefined"`. -/
def hasUndefAux : Option Char → List Char → Bool
  | _, [] => false
  | prev, c :: rest => undefTokenAt prev (c :: rest) || hasUndefAux (some c) rest

/-- The test `/\bundefined\b/.test(s)`: does `s` contain `"undefined"` as a
whole word (not flanked by word characters)? -/
def hasUndefinedToken (s : String) : Bool :=
  hasUndefAux none s.toList

/-- The regex match `-(\d+)$` applied by `exec` and converted by
`Number(...)`: the digits after a trailing `-digits` suffix, if the string
ends that way. -/
def trailingDashDigits (s : String) : Option Nat :=
  let rev := s.toList.reverse
  let ds := rev.takeWhile Char.isDigit
  if ds.isEmpty then none
  else
    match rev.drop ds.length with
    | '-' :: _ => (String.mk ds.reverse).toNat?
    | _ => none

/-- The engine's view of the owning item, as consulted by `logChange` and the
diagnostics: display name, uuid, whether it is a `FeatPF2e`, the feat's
`location` string and numeric `level`, and for non-feats an optional numeric
`level` field (`none` when the item has no numeric `level`). -/
structure ItemInfo where
  name : String
  uuid : String
  isFeat : Bool
  featLocation : Option String
  featLevel : Int
  level : Option Int
deriving Repr

/-- The `level` computed by `logChange`: for feats, the trailing `-digits`
of the feat's location converted by `Number`, with `|| item.level` as
fallback (a failed match gives `NaN` and a `"-0"` suffix gives `0`, both
falsy, so those fall back to the feat's level); for other items, the numeric
`level` field when present, else `null`. -/
def logLevel (item : ItemInfo) : Option Int :=
  if item.isFeat then
    match trailingDashDigits (item.featLocation.getD "") with
    | some n => if n = 0 then some item.featLevel else some (Int.ofNat n)
    | none => some item.featLevel
  else item.level

/-- The three phases at which directives may fire
(`"applyAEs" | "beforeDerived" | "afterDerived"`). -/
inductive Phase where
  | applyAEs
  | beforeDerived
  | afterDerived
deriving Repr, DecidableEq

/-- One entry of the `autoChanges` audit log:
`{ mode, level, value, source }`. -/
structure AutoChangeEntry where
  source : String
  level : Option Int
  value : JSValue
  mode : JSValue
deriving Repr

/-- A directive's stored record after construction (`this.data`): `path` is a
string per the declared `AELikeData` interface; `mode` and `value` are kept as
raw runtime values; `priority` is `none` when it is `NaN`; `predicate` is the
opaque boolean test over the owner's roll options, absent when no predicate
was given. -/
structure AELikeData where
  path : String
  value : JSValue
  mode : JSValue
  priority : Option Int
  phase : Phase
  predicate : Option (List String → Bool)
  ignored : Bool

/-- The raw source fields handed to the constructor (`AELikeSource`): `path`
and `mode` are unknown-typed, `priority` and `phase` may be absent. -/
structure AELikeSource where
  path : JSValue := .undefined
  value : JSValue := .undefined
  mode : JSValue := .undefined
  priority : Option Int := none
  phase : Option Phase := none
  predicate : Option (List String → Bool) := none

/-- The external collaborators consumed during application: the placeholder
resolver `resolveInjectedProperties`, the value resolver `resolveValue` (both
inherited from `RuleElementPF2e`, outside the translated file), and the
owner's current roll options `actor.getRollOptions(["all"])`. -/
structure Env where
  resolveInj : String → String
  resolveVal : JSValue → JSValue
  rollOptions : List String

/-- The mutable actor state the engine touches: the data tree (`actor.data`)
and the per-cycle change log (`actor.data.data.autoChanges`, keyed by resolved
path). -/
structure ActorState where
  tree : JSValue
  autoChanges : List (String × List AutoChangeEntry)
deriving Repr

/-- The outcome of one application step: the (possibly path-rewritten)
directive record, the updated actor state, and the warnings emitted (each
recorded by the invalid property name passed to `warn`). -/
structure ApplyResult where
  directive : AELikeData
  actor : ActorState
  warnings : List String

/-- `AELikeRuleElement.CHANGE_MODES`. -/
def CHANGE_MODES : List String := ["multiply", "add", "downgrade", "upgrade", "override"]

/-- The default priority computed by the constructor when none is given:
`CHANGE_MODES.indexOf(mode) * 10 + 10` for a recognized string mode, else
`NaN` (modelled as `none`). -/
def defaultPriority (mode : JSValue) : Option Int :=
  match mode with
  | .str s =>
      if s ∈ CHANGE_MODES then some ((CHANGE_MODES.indexOf s : Nat) * 10 + 10)
      else none
  | _ => none

/-- The constructor's per-candidate test, transcribed exactly:
`typeof getProperty(actor.data, path) !== undefined` — a strict comparison of
the string produced by `typeof` against the `undefined` value. -/
def typeofIsNotUndefinedValue (v : JSValue) : Bool :=
  !(jsStrictEqPrim (JSValue.str (jsTypeof v)) JSValue.undefined)

/-- The constructor's path plausibility check over the three candidate paths
(full path, last segment removed, last two segments removed). -/
def pathCheckCandidates (tree : JSValue) (path : String) : Bool :=
  [path, dropLastSegment path, dropLastTwoSegments path].any
    fun p => typeofIsNotUndefinedValue (getProperty tree p)

/-- `pathIsValid` from the constructor: the path is a string and the
candidate check passes. -/
def pathIsValid (tree : JSValue) (path : JSValue) : Bool :=
  match path with
  | .str s => pathCheckCandidates tree s
  | _ => false

/-- Modelled from the spec: the intended path plausibility test — at least
one of the full path, the path with its last segment removed, and the path
with its last two segments removed resolves to some defined value on the data
tree. -/
def pathPlausibleSpec (tree : JSValue) (path : String) : Bool :=
  [path, dropLastSegment path, dropLastTwoSegments path].any
    fun p => !(isUndefined (getProperty tree p))

/-- `valueIsValid` from the constructor:
`["number", "string", "boolean", "object"].includes(typeof this.value)`. -/
def valueIsValid (value : JSValue) : Bool :=
  jsTypeof value ∈ ["number", "string", "boolean", "object"]

/-- The string stored as the directive's path (the declared interface types
`path` as `string`; a non-string raw path only ever occurs on a directive the
constructor marks ignored, whose path is never consulted again). -/
def pathAsString : JSValue → String
  | .str s => s
  | _ => ""

/-- The `AELikeRuleElement` constructor: default the priority from the mode
table (else `NaN`), default the phase to `"applyAEs"`; a `NaN` priority marks
the directive ignored at once with no further checks and no warning;
otherwise run the path and value validations, emit `warn("path")` /
`warn("value")` on their failures, and mark the directive ignored when either
fails. Returns the constructed record and the emitted warnings. -/
def construct (src : AELikeSource) (actorTree : JSValue) : AELikeData × List String :=
  let priority : Option Int :=
    match src.priority with
    | some p => some p
    | none => defaultPriority src.mode
  let phase := src.phase.getD Phase.applyAEs
  let base : AELikeData :=
    { path := pathAsString src.path, value := src.value, mode := src.mode,
      priority := priority, phase := phase, predicate := src.predicate,
      ignored := false }
  match priority with
  | none => ({ base with ignored := true }, [])
  | some _ =>
      let pathOk := pathIsValid actorTree src.path
      let valueOk := valueIsValid src.value
      let warns := (if pathOk then [] else ["path"]) ++ (if valueOk then [] else ["value"])
      if pathOk && valueOk then (base, warns)
      else ({ base with ignored := true }, warns)

/-- Append one entry under `path` in the change log, creating its bucket if
needed (`(autoChanges[this.path] ??= []); entries.push(...)`). -/
def pushEntry :
    List (String × List AutoChangeEntry) → String → AutoChangeEntry →
      List (String × List AutoChangeEntry)
  | [], path, e => [(path, [e])]
  | (k, es) :: rest, path, e =>
      if k = path then (k, es ++ [e]) :: rest
      else (k, es) :: pushEntry rest path e

/-- `logChange(value)`: string values are recorded only when the mode is
`"override"`; the pushed entry is `{ mode, level, value, source }` with the
level derived from the owning item. -/
def logChange (item : ItemInfo) (mode : JSValue) (path : String)
    (a : ActorState) (value : JSValue) : ActorState :=
  if jsTypeof value == "string" && !(jsStrictEqPrim mode (JSValue.str "override")) then a
  else
    { a with
      autoChanges :=
        pushEntry a.autoChanges path
          { source := item.name, level := logLevel item, value := value, mode := mode } }

/-- The value written by `override`: when the change is a plain key-value
object (the `isObject` test from the host utilities, modelled from the spec
as the plain-object case), every string-valued member is passed through the
placeholder resolver first; any other change value is written as-is. -/
def overrideResolve (env : Env) (change : JSValue) : JSValue :=
  match change with
  | .obj fields =>
      .obj (fields.map fun kv =>
        match kv.2 with
        | .str s => (kv.1, JSValue.str (env.resolveInj s))
        | _ => kv)
  | _ => change

/-- The `case "multiply"` branch of the `switch (this.mode)` dispatch: guard
`typeof change === "number"` with a numeric-or-undefined current value, write
`(current ?? 0) * change`, and log the change; on precondition failure,
`warn("path")` with no write and no log. -/
def multiplyCase (item : ItemInfo) (d : AELikeData) (a : ActorState)
    (change current : JSValue) : ApplyResult :=
  if !(isNumber change && (isNumber current || isUndefined current)) then
    ⟨d, a, ["path"]⟩
  else
    let newValue := JSValue.num (numOf (ncoalesce current (JSValue.num 0)) * numOf change)
    let a1 := { a with tree := setProperty a.tree d.path newValue }
    ⟨d, logChange item d.mode d.path a1 change, []⟩

/-- The `case "add"` branch: a numeric add when the change is a number and
the current value is a number or nullish, writing `(current ?? 0) + change`
and logging; otherwise an in-place array append when the current value is an
array that is empty or whose elements all share the change's runtime type,
with no log entry; otherwise `warn("path")`. -/
def addCase (item : ItemInfo) (d : AELikeData) (a : ActorState)
    (change current : JSValue) : ApplyResult :=
  let isNumericAdd :=
    isNumber change && (isNumber current || isUndefined current || isNull current)
  let isArrayAdd :=
    match current with
    | .arr elems => elems.all fun e => jsTypeof e == jsTypeof change
    | _ => false
  if isNumericAdd then
    let newValue := JSValue.num (numOf (ncoalesce current (JSValue.num 0)) + numOf change)
    let a1 := { a with tree := setProperty a.tree d.path newValue }
    ⟨d, logChange item d.mode d.path a1 change, []⟩
  else if isArrayAdd then
    match current with
    | .arr elems =>
        ⟨d, { a with tree := setProperty a.tree d.path (JSValue.arr (elems ++ [change])) }, []⟩
    | _ => ⟨d, a, ["path"]⟩
  else ⟨d, a, ["path"]⟩

/-- The `case "downgrade"` branch: same precondition as `multiply`, writing
`Math.min(current ?? 0, change)` and logging. -/
def downgradeCase (item : ItemInfo) (d : AELikeData) (a : ActorState)
    (change current : JSValue) : ApplyResult :=
  if !(isNumber change && (isNumber current || isUndefined current)) then
    ⟨d, a, ["path"]⟩
  else
    let newValue := JSValue.num (min (numOf (ncoalesce current (JSValue.num 0))) (numOf change))
    let a1 := { a with tree := setProperty a.tree d.path newValue }
    ⟨d, logChange item d.mode d.path a1 change, []⟩

/-- The `case "upgrade"` branch: same precondition as `multiply`, writing
`Math.max(current ?? 0, change)` and logging. -/
def upgradeCase (item : ItemInfo) (d : AELikeData) (a : ActorState)
    (change current : JSValue) : ApplyResult :=
  if !(isNumber change && (isNumber current || isUndefined current)) then
    ⟨d, a, ["path"]⟩
  else
    let newValue := JSValue.num (max (numOf (ncoalesce current (JSValue.num 0))) (numOf change))
    let a1 := { a with tree := setProperty a.tree d.path newValue }
    ⟨d, logChange item d.mode d.path a1 change, []⟩

/-- The `case "override"` branch: re-read the current value; when the runtime
types agree or the current value is `undefined`, write the change (resolving
string members first when it is a plain object) and log it only when it is a
string; otherwise do nothing at all, with no warning. -/
def overrideCase (env : Env) (item : ItemInfo) (d : AELikeData) (a : ActorState)
    (change : JSValue) : ApplyResult :=
  let currentValue := getProperty a.tree d.path
  if jsTypeof change == jsTypeof currentValue || isUndefined currentValue then
    let resolved := overrideResolve env change
    let a1 := { a with tree := setProperty a.tree d.path resolved }
    match change with
    | .str s => ⟨d, logChange item d.mode d.path a1 (JSValue.str s), []⟩
    | _ => ⟨d, a1, []⟩
  else ⟨d, a, []⟩

/-- The `switch (this.mode)` dispatch of `applyAELike`, given the resolved
change value and the current value read at the (already resolved) path; an
unrecognized mode matches no case and does nothing. -/
def applyMode (env : Env) (item : ItemInfo) (d : AELikeData) (a : ActorState)
    (change current : JSValue) : ApplyResult :=
  match d.mode with
  | .str "multiply" => multiplyCase item d a change current
  | .str "add" => addCase item d a change current
  | .str "downgrade" => downgradeCase item d a change current
  | .str "upgrade" => upgradeCase item d a change current
  | .str "override" => overrideCase env item d a change
  | _ => ⟨d, a, []⟩

/-- The body of `applyAELike` after the predicate gate: overwrite
`this.data.path` with its placeholder-resolved form, abort silently when the
resolved path contains a whole-word `undefined` token, otherwise resolve the
change value, read the current value, and dispatch on the mode. -/
def applyResolved (env : Env) (item : ItemInfo) (d : AELikeData) (a : ActorState) :
    ApplyResult :=
  let newPath := env.resolveInj d.path
  let d1 := { d with path := newPath }
  if hasUndefinedToken newPath then ⟨d1, a, []⟩
  else
    let change := env.resolveVal d.value
    let current := getProperty a.tree newPath
    applyMode env item d1 a change current

/-- `applyAELike()`: abort before anything else when a predicate is present
and tests false against the owner's roll options. -/
def applyAELike (env : Env) (item : ItemInfo) (d : AELikeData) (a : ActorState) :
    ApplyResult :=
  match d.predicate with
  | some p =>
      if !(p env.rollOptions) then ⟨d, a, []⟩
      else applyResolved env item d a
  | none => applyResolved env item d a

/-- `onApplyActiveEffects()`: run the directive when it is not ignored and
its phase is `"applyAEs"`. -/
def onApplyActiveEffects (env : Env) (item : ItemInfo) (d : AELikeData)
    (a : ActorState) : ApplyResult :=
  if !d.ignored && d.phase = Phase.applyAEs then applyAELike env item d a
  else ⟨d, a, []⟩

/-- `beforePrepareData()`: run the directive when it is not ignored and its
phase is `"beforeDerived"`. -/
def beforePrepareData (env : Env) (item : ItemInfo) (d : AELikeData)
    (a : ActorState) : ApplyResult :=
  if !d.ignored && d.phase = Phase.beforeDerived then applyAELike env item d a
  else ⟨d, a, []⟩

/-- `afterPrepareData()`: run the directive when it is not ignored and its
phase is `"afterDerived"`. -/
def afterPrepareData (env : Env) (item : ItemInfo) (d : AELikeData)
    (a : ActorState) : ApplyResult :=
  if !d.ignored && d.phase = Phase.afterDerived then applyAELike env item d a
  else ⟨d, a, []⟩

/-- Does the predicate gate of `applyAELike` let the directive through? -/
def predicatePasses (env : Env) (d : AELikeData) : Bool :=
  match d.predicate with
  | none => true
  | some p => p env.rollOptions

/-- The directive's fields other than `path` survive a step unchanged. -/
def preservesNonPath (d e : AELikeData) : Prop :=
  e.mode = d.mode ∧ e.value = d.value ∧ e.phase = d.phase ∧
    e.priority = d.priority ∧ e.ignored = d.ignored

/-- The constructor's mode-recognition test:
`typeof data.mode === "string" && AELikeRuleElement.CHANGE_MODES.includes(data.mode)`. -/
def isRecognizedMode : JSValue → Bool
  | .str s => decide (s ∈ CHANGE_MODES)
  | _ => false

/-- A minimal concrete directive for witness runs: priority 10, default
phase, no predicate, not ignored. -/
def dirOf (path : String) (v : JSValue) (mode : String) : AELikeData :=
  ⟨path, v, .str mode, some 10, .applyAEs, none, false⟩

/-- An environment whose resolvers are the identity, with no roll options. -/
def envId : Env := ⟨id, id, []⟩

/-- An environment whose placeholder resolver leaves an unresolved
`undefined` marker in every path. -/
def envTok : Env := ⟨fun _ => "a.undefined.b", id, []⟩

/-- An environment whose placeholder resolver rewrites every path to
`"a.b"`. -/
def envSub : Env := ⟨fun _ => "a.b", id, []⟩

/-- An environment that resolves the placeholder `"@ref"` and leaves other
strings alone. -/
def envRef : Env := ⟨fun s => if s = "@ref" then "RESOLVED" else s, id, []⟩

/-- A concrete non-feat owning item with numeric level 3. -/
def itemA : ItemInfo := ⟨"Bracers of Armor", "Item.abc123", false, none, 0, some 3⟩

/-- A concrete actor tree holding the number 5 at `a.b`. -/
def treeA : JSValue := .obj [("a", .obj [("b", .num 5)])]

/-- A concrete actor tree holding the string `"x"` at `a.b`. -/
def treeS : JSValue := .obj [("a", .obj [("b", .str "x")])]

/-- Actor state over `treeA` with an empty change log. -/
def actorA : ActorState := ⟨treeA, []⟩

theorem multiplyCase_directive_eq (item : ItemInfo) (d : AELikeData)
    (a : ActorState) (change current : JSValue) :
    (multiplyCase item d a change current).directive = d := by
  unfold multiplyCase
  dsimp only
  repeat' split
  all_goals rfl

theorem addCase_directive_eq (item : ItemInfo) (d : AELikeData)
    (a : ActorState) (change current : JSValue) :
    (addCase item d a change current).directive = d := by
  unfold addCase
  dsimp only
  repeat' split
  all_goals rfl

theorem downgradeCase_directive_eq (item : ItemInfo) (d : AELikeData)
    (a : ActorState) (change current : JSValue) :
    (downgradeCase item d a change current).directive = d := by
  unfold downgradeCase
  dsimp only
  repeat' split
  all_goals rfl

theorem upgradeCase_directive_eq (item : ItemInfo) (d : AELikeData)
    (a : ActorState) (change current : JSValue) :
    (upgradeCase item d a change current).directive = d := by
  unfold upgradeCase
  dsimp only
  repeat' split
  all_goals rfl

theorem overrideCase_directive_eq (env : Env) (item : ItemInfo) (d : AELikeData)
    (a : ActorState) (change : JSValue) :
    (overrideCase env item d a change).directive = d := by
  unfold overrideCase
  dsimp only
  repeat' split
  all_goals rfl

theorem applyMode_directive_eq (env : Env) (item : ItemInfo) (d : AELikeData)
    (a : ActorState) (change current : JSValue) :
    (applyMode env item d a change current).directive = d := by
  unfold applyMode
  split
  · exact multiplyCase_directive_eq item d a change current
  · exact addCase_directive_eq item d a change current
  · exact downgradeCase_directive_eq item d a change current
  · exact upgradeCase_directive_eq item d a change current
  · exact overrideCase_directive_eq env item d a change
  · rfl

theorem applyResolved_directive_eq (env : Env) (item : ItemInfo) (d : AELikeData)
    (a : ActorState) :
    (applyResolved env item d a).directive = { d with path := env.resolveInj d.path } := by
  unfold applyResolved
  by_cases h : hasUndefinedToken (env.resolveInj d.path)
  · simp [h]
  · simp [h, applyMode_directive_eq]

theorem applyAELike_predicate_true (env : Env) (item : ItemInfo) (d : AELikeData)
    (a : ActorState) (h : predicatePasses env d = true) :
    applyAELike env item d a = applyResolved env item d a := by
  unfold applyAELike
  cases hd : d.predicate with
  | none => rfl
  | some p =>
      have hp : p env.rollOptions = true := by
        unfold predicatePasses at h
        rw [hd] at h
        simpa using h
      simp [hp]

theorem applyAELike_predicate_false (env : Env) (item : ItemInfo) (d : AELikeData)
    (a : ActorState) (h : predicatePasses env d = false) :
    applyAELike env item d a = ⟨d, a, []⟩ := by
  unfold applyAELike
  cases hd : d.predicate with
  | none =>
      unfold predicatePasses at h
      rw [hd] at h
      simp at h
  | some p =>
      have hp : p env.rollOptions = false := by
        unfold predicatePasses at h
        rw [hd] at h
        simpa using h
      simp [hp]

theorem applyAELike_directive_cases (env : Env) (item : ItemInfo) (d : AELikeData)
    (a : ActorState) :
    (applyAELike env item d a).directive = d ∨
      (applyAELike env item d a).directive = { d with path := env.resolveInj d.path } := by
  cases h : predicatePasses env d with
  | true =>
      rw [applyAELike_predicate_true env item d a h]
      exact Or.inr (applyResolved_directive_eq env item d a)
  | false =>
      rw [applyAELike_predicate_false env item d a h]
      exact Or.inl rfl

theorem applyResolved_eq_applyMode (env : Env) (item : ItemInfo) (d : AELikeData)
    (a : ActorState) (h : hasUndefinedToken (env.resolveInj d.path) = false) :
    applyResolved env item d a =
      applyMode env item { d with path := env.resolveInj d.path } a
        (env.resolveVal d.value) (getProperty a.tree (env.resolveInj d.path)) := by
  unfold applyResolved
  simp [h]

theorem applyMode_eq_multiply (env : Env) (item : ItemInfo) (d : AELikeData)
    (a : ActorState) (change current : JSValue) (hm : d.mode = JSValue.str "multiply") :
    applyMode env item d a change current = multiplyCase item d a change current := by
  unfold applyMode
  rw [hm]
  rfl

theorem applyMode_eq_add (env : Env) (item : ItemInfo) (d : AELikeData)
    (a : ActorState) (change current : JSValue) (hm : d.mode = JSValue.str "add") :
    applyMode env item d a change current = addCase item d a change current := by
  unfold applyMode
  rw [hm]
  rfl

theorem applyMode_eq_downgrade (env : Env) (item : ItemInfo) (d : AELikeData)
    (a : ActorState) (change current : JSValue) (hm : d.mode = JSValue.str "downgrade") :
    applyMode env item d a change current = downgradeCase item d a change current := by
  unfold applyMode
  rw [hm]
  rfl

theorem applyMode_eq_upgrade (env : Env) (item : ItemInfo) (d : AELikeData)
    (a : ActorState) (change current : JSValue) (hm : d.mode = JSValue.str "upgrade") :
    applyMode env item d a change current = upgradeCase item d a change current := by
  unfold applyMode
  rw [hm]
  rfl

theorem applyMode_eq_override (env : Env) (item : ItemInfo) (d : AELikeData)
    (a : ActorState) (change current : JSValue) (hm : d.mode = JSValue.str "override") :
    applyMode env item d a change current = overrideCase env item d a change := by
  unfold applyMode
  rw [hm]
  rfl

theorem multiplyCase_num (item : ItemInfo) (d : AELikeData)
    (a : ActorState) (c cur : Int) :
    multiplyCase item d a (JSValue.num c) (JSValue.num cur) =
      ⟨d, ⟨setProperty a.tree d.path (JSValue.num (cur * c)),
           pushEntry a.autoChanges d.path
             ⟨item.name, logLevel item, JSValue.num c, d.mode⟩⟩, []⟩ := by
  unfold multiplyCase
  simp [isNumber, isUndefined, ncoalesce, numOf, logChange, jsTypeof]

theorem multiplyCase_undef (item : ItemInfo) (d : AELikeData)
    (a : ActorState) (c : Int) :
    multiplyCase item d a (JSValue.num c) JSValue.undefined =
      ⟨d, ⟨setProperty a.tree d.path (JSValue.num (0 * c)),
           pushEntry a.autoChanges d.path
             ⟨item.name, logLevel item, JSValue.num c, d.mode⟩⟩, []⟩ := by
  unfold multiplyCase
  simp [isNumber, isUndefined, ncoalesce, numOf, logChange, jsTypeof]

theorem addCase_num (item : ItemInfo) (d : AELikeData)
    (a : ActorState) (c cur : Int) :
    addCase item d a (JSValue.num c) (JSValue.num cur) =
      ⟨d, ⟨setProperty a.tree d.path (JSValue.num (cur + c)),
           pushEntry a.autoChanges d.path
             ⟨item.name, logLevel item, JSValue.num c, d.mode⟩⟩, []⟩ := by
  unfold addCase
  simp [isNumber, isUndefined, isNull, ncoalesce, numOf, logChange, jsTypeof]

theorem addCase_undef (item : ItemInfo) (d : AELikeData)
    (a : ActorState) (c : Int) :
    addCase item d a (JSValue.num c) JSValue.undefined =
      ⟨d, ⟨setProperty a.tree d.path (JSValue.num (0 + c)),
           pushEntry a.autoChanges d.path
             ⟨item.name, logLevel item, JSValue.num c, d.mode⟩⟩, []⟩ := by
  unfold addCase
  simp [isNumber, isUndefined, isNull, ncoalesce, numOf, logChange, jsTypeof]

theorem addCase_null (item : ItemInfo) (d : AELikeData)
    (a : ActorState) (c : Int) :
    addCase item d a (JSValue.num c) JSValue.null =
      ⟨d, ⟨setProperty a.tree d.path (JSValue.num (0 + c)),
           pushEntry a.autoChanges d.path
             ⟨item.name, logLevel item, JSValue.num c, d.mode⟩⟩, []⟩ := by
  unfold addCase
  simp [isNumber, isUndefined, isNull, ncoalesce, numOf, logChange, jsTypeof]

theorem addCase_array (item : ItemInfo) (d : AELikeData)
    (a : ActorState) (v : JSValue) (elems : List JSValue)
    (ht : (elems.all fun e => jsTypeof e == jsTypeof v) = true) :
    addCase item d a v (JSValue.arr elems) =
      ⟨d, ⟨setProperty a.tree d.path (JSValue.arr (elems ++ [v])), a.autoChanges⟩, []⟩ := by
  unfold addCase
  simp [isNumber, isUndefined, isNull, ht]

theorem addCase_array_mismatch (item : ItemInfo) (d : AELikeData)
    (a : ActorState) (v : JSValue) (elems : List JSValue)
    (ht : (elems.all fun e => jsTypeof e == jsTypeof v) = false) :
    addCase item d a v (JSValue.arr elems) = ⟨d, a, ["path"]⟩ := by
  unfold addCase
  simp [isNumber, isUndefined, isNull, ht]

theorem downgradeCase_num (item : ItemInfo) (d : AELikeData)
    (a : ActorState) (c cur : Int) :
    downgradeCase item d a (JSValue.num c) (JSValue.num cur) =
      ⟨d, ⟨setProperty a.tree d.path (JSValue.num (min cur c)),
           pushEntry a.autoChanges d.path
             ⟨item.name, logLevel item, JSValue.num c, d.mode⟩⟩, []⟩ := by
  unfold downgradeCase
  simp [isNumber, isUndefined, ncoalesce, numOf, logChange, jsTypeof]

theorem downgradeCase_undef (item : ItemInfo) (d : AELikeData)
    (a : ActorState) (c : Int) :
    downgradeCase item d a (JSValue.num c) JSValue.undefined =
      ⟨d, ⟨setProperty a.tree d.path (JSValue.num (min 0 c)),
           pushEntry a.autoChanges d.path
             ⟨item.name, logLevel item, JSValue.num c, d.mode⟩⟩, []⟩ := by
  unfold downgradeCase
  simp [isNumber, isUndefined, ncoalesce, numOf, logChange, jsTypeof]

theorem upgradeCase_num (item : ItemInfo) (d : AELikeData)
    (a : ActorState) (c cur : Int) :
    upgradeCase item d a (JSValue.num c) (JSValue.num cur) =
      ⟨d, ⟨setProperty a.tree d.path (JSValue.num (max cur c)),
           pushEntry a.autoChanges d.path
             ⟨item.name, logLevel item, JSValue.num c, d.mode⟩⟩, []⟩ := by
  unfold upgradeCase
  simp [isNumber, isUndefined, ncoalesce, numOf, logChange, jsTypeof]

theorem upgradeCase_undef (item : ItemInfo) (d : AELikeData)
    (a : ActorState) (c : Int) :
    upgradeCase item d a (JSValue.num c) JSValue.undefined =
      ⟨d, ⟨setProperty a.tree d.path (JSValue.num (max 0 c)),
           pushEntry a.autoChanges d.path
             ⟨item.name, logLevel item, JSValue.num c, d.mode⟩⟩, []⟩ := by
  unfold upgradeCase
  simp [isNumber, isUndefined, ncoalesce, numOf, logChange, jsTypeof]

theorem overrideCase_write (env : Env) (item : ItemInfo) (d : AELikeData)
    (a : ActorState) (v : JSValue) (hm : d.mode = JSValue.str "override")
    (hc : (jsTypeof v == jsTypeof (getProperty a.tree d.path)
            || isUndefined (getProperty a.tree d.path)) = true) :
    (overrideCase env item d a v).actor.tree =
      setProperty a.tree d.path (overrideResolve env v) ∧
    (overrideCase env item d a v).warnings = [] := by
  unfold overrideCase
  dsimp only
  rw [if_pos hc]
  cases v <;> simp [logChange, jsTypeof, jsStrictEqPrim, overrideResolve, hm]

theorem overrideCase_skip (env : Env) (item : ItemInfo) (d : AELikeData)
    (a : ActorState) (v : JSValue)
    (hc : (jsTypeof v == jsTypeof (getProperty a.tree d.path)
            || isUndefined (getProperty a.tree d.path)) = false) :
    overrideCase env item d a v = ⟨d, a, []⟩ := by
  unfold overrideCase
  dsimp only
  rw [if_neg (by simp [hc])]

theorem overrideCase_nolog (env : Env) (item : ItemInfo) (d : AELikeData)
    (a : ActorState) (c : Int) :
    (overrideCase env item d a (JSValue.num c)).actor.autoChanges = a.autoChanges := by
  unfold overrideCase
  dsimp only
  by_cases hc : (jsTypeof (JSValue.num c) == jsTypeof (getProperty a.tree d.path)
      || isUndefined (getProperty a.tree d.path)) = true
  · rw [if_pos hc]
  · rw [if_neg hc]

theorem overrideCase_nolog_nonstr (env : Env) (item : ItemInfo) (d : AELikeData)
    (a : ActorState) (v : JSValue) (hv : isString v = false) :
    (overrideCase env item d a v).actor.autoChanges = a.autoChanges := by
  unfold overrideCase
  dsimp only
  by_cases hc : (jsTypeof v == jsTypeof (getProperty a.tree d.path)
      || isUndefined (getProperty a.tree d.path)) = true
  · rw [if_pos hc]
    cases v <;> simp_all [isString]
  · rw [if_neg hc]

theorem overrideCase_str (env : Env) (item : ItemInfo) (d : AELikeData)
    (a : ActorState) (s : String) (hm : d.mode = JSValue.str "override")
    (hc : (jsTypeof (JSValue.str s) == jsTypeof (getProperty a.tree d.path)
            || isUndefined (getProperty a.tree d.path)) = true) :
    overrideCase env item d a (JSValue.str s) =
      ⟨d, ⟨setProperty a.tree d.path (JSValue.str s),
           pushEntry a.autoChanges d.path
             ⟨item.name, logLevel item, JSValue.str s, d.mode⟩⟩, []⟩ := by
  unfold overrideCase
  dsimp only
  rw [if_pos hc]
  simp [logChange, jsTypeof, jsStrictEqPrim, overrideResolve, hm]

theorem construct_priority_eq (src : AELikeSource) (tree : JSValue) :
    (construct src tree).1.priority =
      (match src.priority with
       | some p => some p
       | none => defaultPriority src.mode) := by
  unfold construct
  dsimp only
  repeat' split
  all_goals rfl

theorem defaultPriority_none_of_unrecognized (m : JSValue)
    (h : isRecognizedMode m = false) : defaultPriority m = none := by
  cases m <;> simp_all [isRecognizedMode, defaultPriority]

theorem construct_nan (src : AELikeSource) (tree : JSValue)
    (h : src.priority = none) (h2 : defaultPriority src.mode = none) :
    construct src tree =
      ({ path := pathAsString src.path, value := src.value, mode := src.mode,
         priority := none, phase := src.phase.getD Phase.applyAEs,
         predicate := src.predicate, ignored := true }, []) := by
  unfold construct
  rw [h]
  dsimp only
  rw [h2]

theorem onApplyActiveEffects_directive_cases (env : Env) (item : ItemInfo)
    (d : AELikeData) (a : ActorState) :
    (onApplyActiveEffects env item d a).directive = d ∨
      (onApplyActiveEffects env item d a).directive = { d with path := env.resolveInj d.path } := by
  unfold onApplyActiveEffects
  split
  · exact applyAELike_directive_cases env item d a
  · exact Or.inl rfl

theorem beforePrepareData_directive_cases (env : Env) (item : ItemInfo)
    (d : AELikeData) (a : ActorState) :
    (beforePrepareData env item d a).directive = d ∨
      (beforePrepareData env item d a).directive = { d with path := env.resolveInj d.path } := by
  unfold beforePrepareData
  split
  · exact applyAELike_directive_cases env item d a
  · exact Or.inl rfl

theorem afterPrepareData_directive_cases (env : Env) (item : ItemInfo)
    (d : AELikeData) (a : ActorState) :
    (afterPrepareData env item d a).directive = d ∨
      (afterPrepareData env item d a).directive = { d with path := env.resolveInj d.path } := by
  unfold afterPrepareData
  split
  · exact applyAELike_directive_cases env item d a
  · exact Or.inl rfl

theorem preservesNonPath_of_cases (d e : AELikeData) (q : String)
    (h : e = d ∨ e = { d with path := q }) : preservesNonPath d e := by
  rcases h with h | h <;> simp [preservesNonPath, h]

theorem mode_update_eq (d : AELikeData) (q : String) :
    ({ d with path := q } : AELikeData).mode = d.mode := rfl

/-- C1: the constructor's path plausibility check cannot fail on any string
path: the transcribed test compares the string produced by `typeof` against
the `undefined` value, and a string is never strictly equal to `undefined`.
Concretely, on an empty actor tree where none of the three candidate paths of
`"foo.bar.baz"` resolves to a defined value — so the spec-intended
plausibility test is false — construction still emits no `warn("path")` and
leaves the directive unignored. -/
theorem c1_path_check_cannot_fail :
    (∀ v : JSValue, typeofIsNotUndefinedValue v = true) ∧
    pathPlausibleSpec (JSValue.obj []) "foo.bar.baz" = false ∧
    (construct { mode := JSValue.str "add", path := JSValue.str "foo.bar.baz",
                 value := JSValue.num 5 } (JSValue.obj [])).1.ignored = false ∧
    (construct { mode := JSValue.str "add", path := JSValue.str "foo.bar.baz",
                 value := JSValue.num 5 } (JSValue.obj [])).2 = [] := by
  refine ⟨fun v => by cases v <;> rfl, rfl, rfl, rfl⟩

/-- C4: when no explicit priority is given, a recognized mode defaults the
priority to 10/20/30/40/50 following the `CHANGE_MODES` table; any other mode
yields a `NaN` priority, and the directive is marked ignored at once, with no
path or value check run and no warning emitted. -/
theorem c4_priority_defaulting (src : AELikeSource) (tree : JSValue)
    (hp : src.priority = none) :
    (src.mode = JSValue.str "multiply" → (construct src tree).1.priority = some 10) ∧
    (src.mode = JSValue.str "add" → (construct src tree).1.priority = some 20) ∧
    (src.mode = JSValue.str "downgrade" → (construct src tree).1.priority = some 30) ∧
    (src.mode = JSValue.str "upgrade" → (construct src tree).1.priority = some 40) ∧
    (src.mode = JSValue.str "override" → (construct src tree).1.priority = some 50) ∧
    (isRecognizedMode src.mode = false →
      (construct src tree).1.priority = none ∧
      (construct src tree).1.ignored = true ∧
      (construct src tree).2 = []) := by
  refine ⟨?_, ?_, ?_, ?_, ?_, ?_⟩
  · intro hm
    rw [construct_priority_eq, hp, hm]
    rfl
  · intro hm
    rw [construct_priority_eq, hp, hm]
    rfl
  · intro hm
    rw [construct_priority_eq, hp, hm]
    rfl
  · intro hm
    rw [construct_priority_eq, hp, hm]
    rfl
  · intro hm
    rw [construct_priority_eq, hp, hm]
    rfl
  · intro hrec
    have hnan := construct_nan src tree hp (defaultPriority_none_of_unrecognized _ hrec)
    rw [hnan]
    exact ⟨rfl, rfl, rfl⟩

/-- Witness for C4 at concrete inputs: a `"downgrade"` directive with no
explicit priority defaults to 30; a `"banana"` mode yields a `NaN` priority
and an immediately ignored directive with no warnings. -/
theorem c4_priority_defaulting_witness :
    (construct { mode := JSValue.str "downgrade", path := JSValue.str "a.b",
                 value := JSValue.num 1 } treeA).1.priority = some 30 ∧
    (construct { mode := JSValue.str "banana", path := JSValue.str "a.b",
                 value := JSValue.num 1 } treeA).1.ignored = true ∧
    (construct { mode := JSValue.str "banana", path := JSValue.str "a.b",
                 value := JSValue.num 1 } treeA).2 = [] := by
  refine ⟨?_, ?_, ?_⟩
  · exact (c4_priority_defaulting _ treeA rfl).2.2.1 rfl
  · exact ((c4_priority_defaulting _ treeA rfl).2.2.2.2.2 (by decide)).2.1
  · exact ((c4_priority_defaulting _ treeA rfl).2.2.2.2.2 (by decide)).2.2

/-- C8: the `ignored` flag is never touched at apply time: `applyAELike` and
each of the three phase entry points return the directive with `ignored`
exactly as it was, so no apply-time failure can disable a directive. -/
theorem c8_ignored_only_set_at_construction (env : Env) (item : ItemInfo)
    (d : AELikeData) (a : ActorState) :
    (applyAELike env item d a).directive.ignored = d.ignored ∧
    (onApplyActiveEffects env item d a).directive.ignored = d.ignored ∧
    (beforePrepareData env item d a).directive.ignored = d.ignored ∧
    (afterPrepareData env item d a).directive.ignored = d.ignored := by
  refine ⟨?_, ?_, ?_, ?_⟩
  · rcases applyAELike_directive_cases env item d a with h | h <;> rw [h]
  · rcases onApplyActiveEffects_directive_cases env item d a with h | h <;> rw [h]
  · rcases beforePrepareData_directive_cases env item d a with h | h <;> rw [h]
  · rcases afterPrepareData_directive_cases env item d a with h | h <;> rw [h]

/-- C3 counterexample: a concrete apply invocation rewrites the directive's
own stored `path`: placeholder resolution maps `"@target.path"` to `"a.b"`
and the resolved form is stored back into the record, so the stored record is
not left unchanged. -/
theorem c3_counterexample_path_mutated :
    (applyAELike envSub itemA (dirOf "@target.path" (JSValue.num 2) "multiply")
        actorA).directive.path ≠
      (dirOf "@target.path" (JSValue.num 2) "multiply").path := by
  decide

/-- C3 amended: on every apply invocation (through `applyAELike` or any of
the three phase entry points) the directive's `mode`, `value`, `phase`,
`priority`, and `ignored` fields are unchanged; the `path` field is
overwritten with its placeholder-resolved form whenever the predicate gate
passes, and the whole record is untouched when the predicate gate rejects. -/
theorem c3_amended_only_path_rewritten (env : Env) (item : ItemInfo)
    (d : AELikeData) (a : ActorState) :
    preservesNonPath d (applyAELike env item d a).directive ∧
    (predicatePasses env d = true →
      (applyAELike env item d a).directive.path = env.resolveInj d.path) ∧
    (predicatePasses env d = false →
      (applyAELike env item d a).directive = d) ∧
    preservesNonPath d (onApplyActiveEffects env item d a).directive ∧
    preservesNonPath d (beforePrepareData env item d a).directive ∧
    preservesNonPath d (afterPrepareData env item d a).directive := by
  refine ⟨preservesNonPath_of_cases d _ (env.resolveInj d.path)
      (applyAELike_directive_cases env item d a), ?_, ?_,
    preservesNonPath_of_cases d _ (env.resolveInj d.path)
      (onApplyActiveEffects_directive_cases env item d a),
    preservesNonPath_of_cases d _ (env.resolveInj d.path)
      (beforePrepareData_directive_cases env item d a),
    preservesNonPath_of_cases d _ (env.resolveInj d.path)
      (afterPrepareData_directive_cases env item d a)⟩
  · intro hpred
    rw [applyAELike_predicate_true env item d a hpred, applyResolved_directive_eq]
  · intro hpred
    rw [applyAELike_predicate_false env item d a hpred]

/-- Witness for C3 (amended) at concrete inputs: with a passing (absent)
predicate the stored path is rewritten to its resolved form `"a.b"`, and with
a rejecting predicate the whole record survives unchanged. -/
theorem c3_amended_only_path_rewritten_witness :
    (applyAELike envSub itemA (dirOf "@target.path" (JSValue.num 2) "multiply")
        actorA).directive.path = "a.b" ∧
    (applyAELike envSub itemA
        { dirOf "@target.path" (JSValue.num 2) "multiply" with
            predicate := some fun _ => false } actorA).directive =
      { dirOf "@target.path" (JSValue.num 2) "multiply" with
          predicate := some fun _ => false } := by
  constructor
  · exact (c3_amended_only_path_rewritten envSub itemA
      (dirOf "@target.path" (JSValue.num 2) "multiply") actorA).2.1 rfl
  · exact (c3_amended_only_path_rewritten envSub itemA
      { dirOf "@target.path" (JSValue.num 2) "multiply" with
          predicate := some fun _ => false } actorA).2.2.1 rfl

/-- C9: a false predicate aborts the application completely (state, log, and
warnings all untouched, before path resolution even runs); a resolved path
containing a whole-word `undefined` token aborts silently after the path
rewrite, leaving the actor state untouched and emitting no warning. -/
theorem c9_predicate_and_unresolved_path_skips (env : Env) (item : ItemInfo)
    (d : AELikeData) (a : ActorState) :
    (∀ p, d.predicate = some p → p env.rollOptions = false →
      applyAELike env item d a = ⟨d, a, []⟩) ∧
    (predicatePasses env d = true →
      hasUndefinedToken (env.resolveInj d.path) = true →
      (applyAELike env item d a).actor = a ∧
      (applyAELike env item d a).warnings = []) := by
  constructor
  · intro p hp hfalse
    apply applyAELike_predicate_false
    unfold predicatePasses
    rw [hp]
    exact hfalse
  · intro hpred htok
    rw [applyAELike_predicate_true env item d a hpred]
    unfold applyResolved
    dsimp only
    rw [if_pos htok]
    exact ⟨rfl, rfl⟩

/-- Witness for C9 at concrete inputs: a directive whose predicate rejects is
a complete no-op, and a directive whose path resolves to `"a.undefined.b"`
leaves the actor state untouched. -/
theorem c9_predicate_and_unresolved_path_skips_witness :
    applyAELike envId itemA
        { dirOf "a.b" (JSValue.num 2) "multiply" with predicate := some fun _ => false }
        actorA =
      ⟨{ dirOf "a.b" (JSValue.num 2) "multiply" with predicate := some fun _ => false },
        actorA, []⟩ ∧
    (applyAELike envTok itemA (dirOf "a.b" (JSValue.num 2) "multiply") actorA).actor =
      actorA := by
  constructor
  · exact (c9_predicate_and_unresolved_path_skips envId itemA
      { dirOf "a.b" (JSValue.num 2) "multiply" with predicate := some fun _ => false }
      actorA).1 (fun _ => false) rfl rfl
  · exact ((c9_predicate_and_unresolved_path_skips envTok itemA
      (dirOf "a.b" (JSValue.num 2) "multiply") actorA).2 rfl rfl).1

/-- C5: for a directive that is not ignored, whose predicate passes, and
whose resolved path has no `undefined` token, the four numeric modes write
exactly `(current ?? 0) * value`, `(current ?? 0) + value`,
`min(current ?? 0, value)` and `max(current ?? 0, value)`: multiply,
downgrade, and upgrade accept a numeric or undefined current value, and add
additionally accepts null. -/
theorem c5_numeric_mode_arithmetic (env : Env) (item : ItemInfo) (d : AELikeData)
    (a : ActorState) (c : Int)
    (hig : d.ignored = false)
    (hpred : predicatePasses env d = true)
    (htok : hasUndefinedToken (env.resolveInj d.path) = false)
    (hval : env.resolveVal d.value = JSValue.num c) :
    (∀ cur : Int, getProperty a.tree (env.resolveInj d.path) = JSValue.num cur →
      (d.mode = JSValue.str "multiply" →
        (applyAELike env item d a).actor.tree =
          setProperty a.tree (env.resolveInj d.path) (JSValue.num (cur * c))) ∧
      (d.mode = JSValue.str "add" →
        (applyAELike env item d a).actor.tree =
          setProperty a.tree (env.resolveInj d.path) (JSValue.num (cur + c))) ∧
      (d.mode = JSValue.str "downgrade" →
        (applyAELike env item d a).actor.tree =
          setProperty a.tree (env.resolveInj d.path) (JSValue.num (min cur c))) ∧
      (d.mode = JSValue.str "upgrade" →
        (applyAELike env item d a).actor.tree =
          setProperty a.tree (env.resolveInj d.path) (JSValue.num (max cur c)))) ∧
    (getProperty a.tree (env.resolveInj d.path) = JSValue.undefined →
      (d.mode = JSValue.str "multiply" →
        (applyAELike env item d a).actor.tree =
          setProperty a.tree (env.resolveInj d.path) (JSValue.num (0 * c))) ∧
      (d.mode = JSValue.str "add" →
        (applyAELike env item d a).actor.tree =
          setProperty a.tree (env.resolveInj d.path) (JSValue.num (0 + c))) ∧
      (d.mode = JSValue.str "downgrade" →
        (applyAELike env item d a).actor.tree =
          setProperty a.tree (env.resolveInj d.path) (JSValue.num (min 0 c))) ∧
      (d.mode = JSValue.str "upgrade" →
        (applyAELike env item d a).actor.tree =
          setProperty a.tree (env.resolveInj d.path) (JSValue.num (max 0 c)))) ∧
    (getProperty a.tree (env.resolveInj d.path) = JSValue.null →
      d.mode = JSValue.str "add" →
        (applyAELike env item d a).actor.tree =
          setProperty a.tree (env.resolveInj d.path) (JSValue.num (0 + c))) := by
  refine ⟨fun cur hcur => ⟨?_, ?_, ?_, ?_⟩, fun hcur => ⟨?_, ?_, ?_, ?_⟩, fun hcur hm => ?_⟩
  · intro hm
    rw [applyAELike_predicate_true env item d a hpred,
      applyResolved_eq_applyMode env item d a htok, hval, hcur,
      applyMode_eq_multiply _ _ _ _ _ _ ((mode_update_eq d _).trans hm), multiplyCase_num]
  · intro hm
    rw [applyAELike_predicate_true env item d a hpred,
      applyResolved_eq_applyMode env item d a htok, hval, hcur,
      applyMode_eq_add _ _ _ _ _ _ ((mode_update_eq d _).trans hm), addCase_num]
  · intro hm
    rw [applyAELike_predicate_true env item d a hpred,
      applyResolved_eq_applyMode env item d a htok, hval, hcur,
      applyMode_eq_downgrade _ _ _ _ _ _ ((mode_update_eq d _).trans hm), downgradeCase_num]
  · intro hm
    rw [applyAELike_predicate_true env item d a hpred,
      applyResolved_eq_applyMode env item d a htok, hval, hcur,
      applyMode_eq_upgrade _ _ _ _ _ _ ((mode_update_eq d _).trans hm), upgradeCase_num]
  · intro hm
    rw [applyAELike_predicate_true env item d a hpred,
      applyResolved_eq_applyMode env item d a htok, hval, hcur,
      applyMode_eq_multiply _ _ _ _ _ _ ((mode_update_eq d _).trans hm), multiplyCase_undef]
  · intro hm
    rw [applyAELike_predicate_true env item d a hpred,
      applyResolved_eq_applyMode env item d a htok, hval, hcur,
      applyMode_eq_add _ _ _ _ _ _ ((mode_update_eq d _).trans hm), addCase_undef]
  · intro hm
    rw [applyAELike_predicate_true env item d a hpred,
      applyResolved_eq_applyMode env item d a htok, hval, hcur,
      applyMode_eq_downgrade _ _ _ _ _ _ ((mode_update_eq d _).trans hm), downgradeCase_undef]
  · intro hm
    rw [applyAELike_predicate_true env item d a hpred,
      applyResolved_eq_applyMode env item d a htok, hval, hcur,
      applyMode_eq_upgrade _ _ _ _ _ _ ((mode_update_eq d _).trans hm), upgradeCase_undef]
  · rw [applyAELike_predicate_true env item d a hpred,
      applyResolved_eq_applyMode env item d a htok, hval, hcur,
      applyMode_eq_add _ _ _ _ _ _ ((mode_update_eq d _).trans hm), addCase_null]

/-- Witness for C5 at the claim's concrete inputs: on `current = 5`,
`value = 2`, multiply yields 10, add yields 7, downgrade yields 2, upgrade
yields 5; add on an undefined current with value 3 yields 3. -/
theorem c5_numeric_mode_arithmetic_witness :
    (applyAELike envId itemA (dirOf "a.b" (JSValue.num 2) "multiply") actorA).actor.tree =
      JSValue.obj [("a", JSValue.obj [("b", JSValue.num 10)])] ∧
    (applyAELike envId itemA (dirOf "a.b" (JSValue.num 2) "add") actorA).actor.tree =
      JSValue.obj [("a", JSValue.obj [("b", JSValue.num 7)])] ∧
    (applyAELike envId itemA (dirOf "a.b" (JSValue.num 2) "downgrade") actorA).actor.tree =
      JSValue.obj [("a", JSValue.obj [("b", JSValue.num 2)])] ∧
    (applyAELike envId itemA (dirOf "a.b" (JSValue.num 2) "upgrade") actorA).actor.tree =
      JSValue.obj [("a", JSValue.obj [("b", JSValue.num 5)])] ∧
    (applyAELike envId itemA (dirOf "a.c" (JSValue.num 3) "add") actorA).actor.tree =
      JSValue.obj [("a", JSValue.obj [("b", JSValue.num 5), ("c", JSValue.num 3)])] := by
  refine ⟨?_, ?_, ?_, ?_, ?_⟩
  · exact ((c5_numeric_mode_arithmetic envId itemA
      (dirOf "a.b" (JSValue.num 2) "multiply") actorA 2 rfl rfl rfl rfl).1 5 rfl).1 rfl
  · exact (((c5_numeric_mode_arithmetic envId itemA
      (dirOf "a.b" (JSValue.num 2) "add") actorA 2 rfl rfl rfl rfl).1 5 rfl).2).1 rfl
  · exact (((c5_numeric_mode_arithmetic envId itemA
      (dirOf "a.b" (JSValue.num 2) "downgrade") actorA 2 rfl rfl rfl rfl).1 5 rfl).2.2).1 rfl
  · exact (((c5_numeric_mode_arithmetic envId itemA
      (dirOf "a.b" (JSValue.num 2) "upgrade") actorA 2 rfl rfl rfl rfl).1 5 rfl).2.2).2 rfl
  · exact (((c5_numeric_mode_arithmetic envId itemA
      (dirOf "a.c" (JSValue.num 3) "add") actorA 3 rfl rfl rfl rfl).2.1 rfl).2).1 rfl

/-- C6: for mode add on an array current value, the resolved value is
appended when the array is empty or every element shares the value's runtime
type (with no warning and no change-log entry); on an element-type mismatch
nothing is written, the log is untouched, and `warn("path")` fires. -/
theorem c6_array_add (env : Env) (item : ItemInfo) (d : AELikeData)
    (a : ActorState) (v : JSValue) (elems : List JSValue)
    (hpred : predicatePasses env d = true)
    (htok : hasUndefinedToken (env.resolveInj d.path) = false)
    (hval : env.resolveVal d.value = v)
    (hm : d.mode = JSValue.str "add")
    (hcur : getProperty a.tree (env.resolveInj d.path) = JSValue.arr elems) :
    ((elems.all fun e => jsTypeof e == jsTypeof v) = true →
      (applyAELike env item d a).actor =
        ⟨setProperty a.tree (env.resolveInj d.path) (JSValue.arr (elems ++ [v])),
          a.autoChanges⟩ ∧
      (applyAELike env item d a).warnings = []) ∧
    ((elems.all fun e => jsTypeof e == jsTypeof v) = false →
      (applyAELike env item d a).actor = a ∧
      (applyAELike env item d a).warnings = ["path"]) := by
  constructor
  · intro ht
    rw [applyAELike_predicate_true env item d a hpred,
      applyResolved_eq_applyMode env item d a htok, hval, hcur,
      applyMode_eq_add _ _ _ _ _ _ ((mode_update_eq d _).trans hm), addCase_array _ _ _ _ _ ht]
    exact ⟨rfl, rfl⟩
  · intro ht
    rw [applyAELike_predicate_true env item d a hpred,
      applyResolved_eq_applyMode env item d a htok, hval, hcur,
      applyMode_eq_add _ _ _ _ _ _ ((mode_update_eq d _).trans hm), addCase_array_mismatch _ _ _ _ _ ht]
    exact ⟨rfl, rfl⟩

/-- Witness for C6 at the claim's concrete inputs: add of 3 onto `[1, 2]`
appends, yielding `[1, 2, 3]`; add of 3 onto `["a"]` leaves the array and the
log unchanged and warns. -/
theorem c6_array_add_witness :
    (applyAELike envId itemA (dirOf "a.b" (JSValue.num 3) "add")
        ⟨JSValue.obj [("a", JSValue.obj [("b", JSValue.arr [JSValue.num 1, JSValue.num 2])])],
          []⟩).actor =
      ⟨JSValue.obj [("a", JSValue.obj
          [("b", JSValue.arr [JSValue.num 1, JSValue.num 2, JSValue.num 3])])], []⟩ ∧
    (applyAELike envId itemA (dirOf "a.b" (JSValue.num 3) "add")
        ⟨JSValue.obj [("a", JSValue.obj [("b", JSValue.arr [JSValue.str "a"])])], []⟩).actor =
      ⟨JSValue.obj [("a", JSValue.obj [("b", JSValue.arr [JSValue.str "a"])])], []⟩ ∧
    (applyAELike envId itemA (dirOf "a.b" (JSValue.num 3) "add")
        ⟨JSValue.obj [("a", JSValue.obj [("b", JSValue.arr [JSValue.str "a"])])], []⟩).warnings =
      ["path"] := by
  refine ⟨?_, ?_, ?_⟩
  · exact ((c6_array_add envId itemA (dirOf "a.b" (JSValue.num 3) "add")
      ⟨JSValue.obj [("a", JSValue.obj [("b", JSValue.arr [JSValue.num 1, JSValue.num 2])])], []⟩
      (JSValue.num 3) [JSValue.num 1, JSValue.num 2] rfl rfl rfl rfl rfl).1 rfl).1
  · exact ((c6_array_add envId itemA (dirOf "a.b" (JSValue.num 3) "add")
      ⟨JSValue.obj [("a", JSValue.obj [("b", JSValue.arr [JSValue.str "a"])])], []⟩
      (JSValue.num 3) [JSValue.str "a"] rfl rfl rfl rfl rfl).2 rfl).1
  · exact ((c6_array_add envId itemA (dirOf "a.b" (JSValue.num 3) "add")
      ⟨JSValue.obj [("a", JSValue.obj [("b", JSValue.arr [JSValue.str "a"])])], []⟩
      (JSValue.num 3) [JSValue.str "a"] rfl rfl rfl rfl rfl).2 rfl).2

/-- C7: for mode override, when the resolved value's runtime type equals the
current value's type or the current value is undefined, the value is written
wholesale (string members of a plain-object value passing through the
placeholder resolver first, per `overrideResolve`) with no warning; when the
types differ and the current value is defined, the invocation changes
nothing — no write, no log entry, no warning. -/
theorem c7_override_type_gate (env : Env) (item : ItemInfo) (d : AELikeData)
    (a : ActorState) (v : JSValue)
    (hpred : predicatePasses env d = true)
    (htok : hasUndefinedToken (env.resolveInj d.path) = false)
    (hval : env.resolveVal d.value = v)
    (hm : d.mode = JSValue.str "override") :
    ((jsTypeof v == jsTypeof (getProperty a.tree (env.resolveInj d.path))
        || isUndefined (getProperty a.tree (env.resolveInj d.path))) = true →
      (applyAELike env item d a).actor.tree =
        setProperty a.tree (env.resolveInj d.path) (overrideResolve env v) ∧
      (applyAELike env item d a).warnings = []) ∧
    ((jsTypeof v == jsTypeof (getProperty a.tree (env.resolveInj d.path))
        || isUndefined (getProperty a.tree (env.resolveInj d.path))) = false →
      applyAELike env item d a =
        ⟨{ d with path := env.resolveInj d.path }, a, []⟩) := by
  constructor
  · intro hc
    rw [applyAELike_predicate_true env item d a hpred,
      applyResolved_eq_applyMode env item d a htok, hval,
      applyMode_eq_override _ _ _ _ _ _ ((mode_update_eq d _).trans hm)]
    exact overrideCase_write env item _ a v hm hc
  · intro hc
    rw [applyAELike_predicate_true env item d a hpred,
      applyResolved_eq_applyMode env item d a htok, hval,
      applyMode_eq_override _ _ _ _ _ _ ((mode_update_eq d _).trans hm)]
    exact overrideCase_skip env item _ a v hc

/-- Witness for C7 at the claim's concrete inputs: overriding the string at
`a.b` with an object does nothing (types differ, current defined); overriding
the undefined `a.c` with `{k: "@ref"}` writes the object with its string
member resolved. -/
theorem c7_override_type_gate_witness :
    applyAELike envRef itemA (dirOf "a.b" (JSValue.obj [("k", JSValue.str "@ref")]) "override")
        ⟨treeS, []⟩ =
      ⟨dirOf "a.b" (JSValue.obj [("k", JSValue.str "@ref")]) "override", ⟨treeS, []⟩, []⟩ ∧
    (applyAELike envRef itemA (dirOf "a.c" (JSValue.obj [("k", JSValue.str "@ref")]) "override")
        ⟨treeS, []⟩).actor.tree =
      JSValue.obj [("a", JSValue.obj
        [("b", JSValue.str "x"), ("c", JSValue.obj [("k", JSValue.str "RESOLVED")])])] := by
  constructor
  · exact (c7_override_type_gate envRef itemA
      (dirOf "a.b" (JSValue.obj [("k", JSValue.str "@ref")]) "override") ⟨treeS, []⟩
      (JSValue.obj [("k", JSValue.str "@ref")]) rfl rfl rfl rfl).2 rfl
  · exact ((c7_override_type_gate envRef itemA
      (dirOf "a.c" (JSValue.obj [("k", JSValue.str "@ref")]) "override") ⟨treeS, []⟩
      (JSValue.obj [("k", JSValue.str "@ref")]) rfl rfl rfl rfl).1 rfl).1

/-- C10: every logged numeric change records the directive's resolved change
operand in the entry's `value` field, not the value written to the tree: each
numeric mode, on a numeric, undefined, or (for add) null current value,
writes its combined `(current ?? 0)` result at the path while pushing an
entry whose value is the operand `c`. -/
theorem c10_log_records_operand (env : Env) (item : ItemInfo) (d : AELikeData)
    (a : ActorState) (c : Int)
    (hpred : predicatePasses env d = true)
    (htok : hasUndefinedToken (env.resolveInj d.path) = false)
    (hval : env.resolveVal d.value = JSValue.num c) :
    (∀ cur : Int, getProperty a.tree (env.resolveInj d.path) = JSValue.num cur →
      (d.mode = JSValue.str "multiply" →
        (applyAELike env item d a).actor =
          ⟨setProperty a.tree (env.resolveInj d.path) (JSValue.num (cur * c)),
            pushEntry a.autoChanges (env.resolveInj d.path)
              ⟨item.name, logLevel item, JSValue.num c, d.mode⟩⟩) ∧
      (d.mode = JSValue.str "add" →
        (applyAELike env item d a).actor =
          ⟨setProperty a.tree (env.resolveInj d.path) (JSValue.num (cur + c)),
            pushEntry a.autoChanges (env.resolveInj d.path)
              ⟨item.name, logLevel item, JSValue.num c, d.mode⟩⟩) ∧
      (d.mode = JSValue.str "downgrade" →
        (applyAELike env item d a).actor =
          ⟨setProperty a.tree (env.resolveInj d.path) (JSValue.num (min cur c)),
            pushEntry a.autoChanges (env.resolveInj d.path)
              ⟨item.name, logLevel item, JSValue.num c, d.mode⟩⟩) ∧
      (d.mode = JSValue.str "upgrade" →
        (applyAELike env item d a).actor =
          ⟨setProperty a.tree (env.resolveInj d.path) (JSValue.num (max cur c)),
            pushEntry a.autoChanges (env.resolveInj d.path)
              ⟨item.name, logLevel item, JSValue.num c, d.mode⟩⟩)) ∧
    (getProperty a.tree (env.resolveInj d.path) = JSValue.undefined →
      (d.mode = JSValue.str "multiply" →
        (applyAELike env item d a).actor =
          ⟨setProperty a.tree (env.resolveInj d.path) (JSValue.num (0 * c)),
            pushEntry a.autoChanges (env.resolveInj d.path)
              ⟨item.name, logLevel item, JSValue.num c, d.mode⟩⟩) ∧
      (d.mode = JSValue.str "add" →
        (applyAELike env item d a).actor =
          ⟨setProperty a.tree (env.resolveInj d.path) (JSValue.num (0 + c)),
            pushEntry a.autoChanges (env.resolveInj d.path)
              ⟨item.name, logLevel item, JSValue.num c, d.mode⟩⟩) ∧
      (d.mode = JSValue.str "downgrade" →
        (applyAELike env item d a).actor =
          ⟨setProperty a.tree (env.resolveInj d.path) (JSValue.num (min 0 c)),
            pushEntry a.autoChanges (env.resolveInj d.path)
              ⟨item.name, logLevel item, JSValue.num c, d.mode⟩⟩) ∧
      (d.mode = JSValue.str "upgrade" →
        (applyAELike env item d a).actor =
          ⟨setProperty a.tree (env.resolveInj d.path) (JSValue.num (max 0 c)),
            pushEntry a.autoChanges (env.resolveInj d.path)
              ⟨item.name, logLevel item, JSValue.num c, d.mode⟩⟩)) ∧
    (getProperty a.tree (env.resolveInj d.path) = JSValue.null →
      d.mode = JSValue.str "add" →
        (applyAELike env item d a).actor =
          ⟨setProperty a.tree (env.resolveInj d.path) (JSValue.num (0 + c)),
            pushEntry a.autoChanges (env.resolveInj d.path)
              ⟨item.name, logLevel item, JSValue.num c, d.mode⟩⟩) := by
  refine ⟨fun cur hcur => ⟨?_, ?_, ?_, ?_⟩, fun hcur => ⟨?_, ?_, ?_, ?_⟩, fun hcur hm => ?_⟩
  · intro hm
    rw [applyAELike_predicate_true env item d a hpred,
      applyResolved_eq_applyMode env item d a htok, hval, hcur,
      applyMode_eq_multiply _ _ _ _ _ _ ((mode_update_eq d _).trans hm), multiplyCase_num]
  · intro hm
    rw [applyAELike_predicate_true env item d a hpred,
      applyResolved_eq_applyMode env item d a htok, hval, hcur,
      applyMode_eq_add _ _ _ _ _ _ ((mode_update_eq d _).trans hm), addCase_num]
  · intro hm
    rw [applyAELike_predicate_true env item d a hpred,
      applyResolved_eq_applyMode env item d a htok, hval, hcur,
      applyMode_eq_downgrade _ _ _ _ _ _ ((mode_update_eq d _).trans hm), downgradeCase_num]
  · intro hm
    rw [applyAELike_predicate_true env item d a hpred,
      applyResolved_eq_applyMode env item d a htok, hval, hcur,
      applyMode_eq_upgrade _ _ _ _ _ _ ((mode_update_eq d _).trans hm), upgradeCase_num]
  · intro hm
    rw [applyAELike_predicate_true env item d a hpred,
      applyResolved_eq_applyMode env item d a htok, hval, hcur,
      applyMode_eq_multiply _ _ _ _ _ _ ((mode_update_eq d _).trans hm), multiplyCase_undef]
  · intro hm
    rw [applyAELike_predicate_true env item d a hpred,
      applyResolved_eq_applyMode env item d a htok, hval, hcur,
      applyMode_eq_add _ _ _ _ _ _ ((mode_update_eq d _).trans hm), addCase_undef]
  · intro hm
    rw [applyAELike_predicate_true env item d a hpred,
      applyResolved_eq_applyMode env item d a htok, hval, hcur,
      applyMode_eq_downgrade _ _ _ _ _ _ ((mode_update_eq d _).trans hm), downgradeCase_undef]
  · intro hm
    rw [applyAELike_predicate_true env item d a hpred,
      applyResolved_eq_applyMode env item d a htok, hval, hcur,
      applyMode_eq_upgrade _ _ _ _ _ _ ((mode_update_eq d _).trans hm), upgradeCase_undef]
  · rw [applyAELike_predicate_true env item d a hpred,
      applyResolved_eq_applyMode env item d a htok, hval, hcur,
      applyMode_eq_add _ _ _ _ _ _ ((mode_update_eq d _).trans hm), addCase_null]

/-- Witness for C10 at concrete inputs: multiply with current 5 and value 2
writes 10 at the path but records value 2 (the operand) in the pushed entry;
add with an undefined current and value 3 writes 3 and likewise records the
operand 3. -/
theorem c10_log_records_operand_witness :
    (applyAELike envId itemA (dirOf "a.b" (JSValue.num 2) "multiply") actorA).actor =
      ⟨JSValue.obj [("a", JSValue.obj [("b", JSValue.num 10)])],
        [("a.b", [⟨"Bracers of Armor", some 3, JSValue.num 2, JSValue.str "multiply"⟩])]⟩ ∧
    (applyAELike envId itemA (dirOf "a.c" (JSValue.num 3) "add") actorA).actor =
      ⟨JSValue.obj [("a", JSValue.obj [("b", JSValue.num 5), ("c", JSValue.num 3)])],
        [("a.c", [⟨"Bracers of Armor", some 3, JSValue.num 3, JSValue.str "add"⟩])]⟩ := by
  constructor
  · exact ((c10_log_records_operand envId itemA (dirOf "a.b" (JSValue.num 2) "multiply")
      actorA 2 rfl rfl rfl).1 5 rfl).1 rfl
  · exact (((c10_log_records_operand envId itemA (dirOf "a.c" (JSValue.num 3) "add")
      actorA 3 rfl rfl rfl).2.1 rfl).2).1 rfl

/-- C2 counterexample: an override directive with the numeric value 7 against
the numeric current value 5 performs the numeric write (the tree now holds 7
at the path) yet appends nothing to the change log — override logs only
string values, so the claim's "numeric changes are always logged" fails for
override. -/
theorem c2_counterexample_numeric_override_unlogged :
    (applyAELike envId itemA (dirOf "a.b" (JSValue.num 7) "override") actorA).actor.tree =
      JSValue.obj [("a", JSValue.obj [("b", JSValue.num 7)])] ∧
    (applyAELike envId itemA (dirOf "a.b" (JSValue.num 7) "override") actorA).actor.autoChanges =
      [] := ⟨rfl, rfl⟩

/-- C2 amended: every successful numeric write in modes multiply, add,
downgrade, and upgrade — onto a numeric current value, an undefined one, or
(for add) a null one — appends a change-log entry
`{mode, level, value, source}`; override appends an entry only for
string-valued writes (any non-string override value, written or not, leaves
the log untouched, as does a skipped override); array appends, for a change
value of any runtime type, are never recorded. -/
theorem c2_amended_change_logging (env : Env) (item : ItemInfo) (d : AELikeData)
    (a : ActorState)
    (hpred : predicatePasses env d = true)
    (htok : hasUndefinedToken (env.resolveInj d.path) = false) :
    (∀ c cur : Int, env.resolveVal d.value = JSValue.num c →
      getProperty a.tree (env.resolveInj d.path) = JSValue.num cur →
      (d.mode = JSValue.str "multiply" ∨ d.mode = JSValue.str "add" ∨
          d.mode = JSValue.str "downgrade" ∨ d.mode = JSValue.str "upgrade") →
      (applyAELike env item d a).actor.autoChanges =
        pushEntry a.autoChanges (env.resolveInj d.path)
          ⟨item.name, logLevel item, JSValue.num c, d.mode⟩) ∧
    (∀ c : Int, env.resolveVal d.value = JSValue.num c →
      getProperty a.tree (env.resolveInj d.path) = JSValue.undefined →
      (d.mode = JSValue.str "multiply" ∨ d.mode = JSValue.str "add" ∨
          d.mode = JSValue.str "downgrade" ∨ d.mode = JSValue.str "upgrade") →
      (applyAELike env item d a).actor.autoChanges =
        pushEntry a.autoChanges (env.resolveInj d.path)
          ⟨item.name, logLevel item, JSValue.num c, d.mode⟩) ∧
    (∀ c : Int, env.resolveVal d.value = JSValue.num c →
      getProperty a.tree (env.resolveInj d.path) = JSValue.null →
      d.mode = JSValue.str "add" →
      (applyAELike env item d a).actor.autoChanges =
        pushEntry a.autoChanges (env.resolveInj d.path)
          ⟨item.name, logLevel item, JSValue.num c, d.mode⟩) ∧
    (∀ v : JSValue, env.resolveVal d.value = v → isString v = false →
      d.mode = JSValue.str "override" →
      (applyAELike env item d a).actor.autoChanges = a.autoChanges) ∧
    (∀ s : String, env.resolveVal d.value = JSValue.str s →
      d.mode = JSValue.str "override" →
      (jsTypeof (JSValue.str s) == jsTypeof (getProperty a.tree (env.resolveInj d.path))
          || isUndefined (getProperty a.tree (env.resolveInj d.path))) = true →
      (applyAELike env item d a).actor =
        ⟨setProperty a.tree (env.resolveInj d.path) (JSValue.str s),
          pushEntry a.autoChanges (env.resolveInj d.path)
            ⟨item.name, logLevel item, JSValue.str s, d.mode⟩⟩) ∧
    (∀ v : JSValue, env.resolveVal d.value = v →
      d.mode = JSValue.str "override" →
      (jsTypeof v == jsTypeof (getProperty a.tree (env.resolveInj d.path))
          || isUndefined (getProperty a.tree (env.resolveInj d.path))) = false →
      applyAELike env item d a = ⟨{ d with path := env.resolveInj d.path }, a, []⟩) ∧
    (∀ (v : JSValue) (elems : List JSValue), env.resolveVal d.value = v →
      d.mode = JSValue.str "add" →
      getProperty a.tree (env.resolveInj d.path) = JSValue.arr elems →
      (elems.all fun e => jsTypeof e == jsTypeof v) = true →
      (applyAELike env item d a).actor.autoChanges = a.autoChanges) := by
  refine ⟨?_, ?_, ?_, ?_, ?_, ?_, ?_⟩
  · intro c cur hval hcur hm
    rcases hm with hm | hm | hm | hm
    · rw [applyAELike_predicate_true env item d a hpred,
        applyResolved_eq_applyMode env item d a htok, hval, hcur,
        applyMode_eq_multiply _ _ _ _ _ _ ((mode_update_eq d _).trans hm), multiplyCase_num]
    · rw [applyAELike_predicate_true env item d a hpred,
        applyResolved_eq_applyMode env item d a htok, hval, hcur,
        applyMode_eq_add _ _ _ _ _ _ ((mode_update_eq d _).trans hm), addCase_num]
    · rw [applyAELike_predicate_true env item d a hpred,
        applyResolved_eq_applyMode env item d a htok, hval, hcur,
        applyMode_eq_downgrade _ _ _ _ _ _ ((mode_update_eq d _).trans hm), downgradeCase_num]
    · rw [applyAELike_predicate_true env item d a hpred,
        applyResolved_eq_applyMode env item d a htok, hval, hcur,
        applyMode_eq_upgrade _ _ _ _ _ _ ((mode_update_eq d _).trans hm), upgradeCase_num]
  · intro c hval hcur hm
    rcases hm with hm | hm | hm | hm
    · rw [applyAELike_predicate_true env item d a hpred,
        applyResolved_eq_applyMode env item d a htok, hval, hcur,
        applyMode_eq_multiply _ _ _ _ _ _ ((mode_update_eq d _).trans hm), multiplyCase_undef]
    · rw [applyAELike_predicate_true env item d a hpred,
        applyResolved_eq_applyMode env item d a htok, hval, hcur,
        applyMode_eq_add _ _ _ _ _ _ ((mode_update_eq d _).trans hm), addCase_undef]
    · rw [applyAELike_predicate_true env item d a hpred,
        applyResolved_eq_applyMode env item d a htok, hval, hcur,
        applyMode_eq_downgrade _ _ _ _ _ _ ((mode_update_eq d _).trans hm), downgradeCase_undef]
    · rw [applyAELike_predicate_true env item d a hpred,
        applyResolved_eq_applyMode env item d a htok, hval, hcur,
        applyMode_eq_upgrade _ _ _ _ _ _ ((mode_update_eq d _).trans hm), upgradeCase_undef]
  · intro c hval hcur hm
    rw [applyAELike_predicate_true env item d a hpred,
      applyResolved_eq_applyMode env item d a htok, hval, hcur,
      applyMode_eq_add _ _ _ _ _ _ ((mode_update_eq d _).trans hm), addCase_null]
  · intro v hval hv hm
    rw [applyAELike_predicate_true env item d a hpred,
      applyResolved_eq_applyMode env item d a htok, hval,
      applyMode_eq_override _ _ _ _ _ _ ((mode_update_eq d _).trans hm)]
    exact overrideCase_nolog_nonstr env item _ a v hv
  · intro s hval hm hc
    rw [applyAELike_predicate_true env item d a hpred,
      applyResolved_eq_applyMode env item d a htok, hval,
      applyMode_eq_override _ _ _ _ _ _ ((mode_update_eq d _).trans hm),
      overrideCase_str env item { d with path := env.resolveInj d.path } a s hm hc]
  · intro v hval hm hc
    rw [applyAELike_predicate_true env item d a hpred,
      applyResolved_eq_applyMode env item d a htok, hval,
      applyMode_eq_override _ _ _ _ _ _ ((mode_update_eq d _).trans hm)]
    exact overrideCase_skip env item _ a v hc
  · intro v elems hval hm hcur ht
    rw [applyAELike_predicate_true env item d a hpred,
      applyResolved_eq_applyMode env item d a htok, hval, hcur,
      applyMode_eq_add _ _ _ _ _ _ ((mode_update_eq d _).trans hm), addCase_array _ _ _ _ _ ht]

/-- Witness for C2 (amended) at concrete inputs: an add of 2 onto the 5 at
`a.b` pushes the entry for value 2; an add of 3 onto the undefined `a.c`
pushes the entry for value 3; a numeric override of `a.b` leaves the log
empty. -/
theorem c2_amended_change_logging_witness :
    (applyAELike envId itemA (dirOf "a.b" (JSValue.num 2) "add") actorA).actor.autoChanges =
      [("a.b", [⟨"Bracers of Armor", some 3, JSValue.num 2, JSValue.str "add"⟩])] ∧
    (applyAELike envId itemA (dirOf "a.c" (JSValue.num 3) "add") actorA).actor.autoChanges =
      [("a.c", [⟨"Bracers of Armor", some 3, JSValue.num 3, JSValue.str "add"⟩])] ∧
    (applyAELike envId itemA (dirOf "a.b" (JSValue.num 7) "override") actorA).actor.autoChanges =
      [] := by
  refine ⟨?_, ?_, ?_⟩
  · exact (c2_amended_change_logging envId itemA (dirOf "a.b" (JSValue.num 2) "add")
      actorA rfl rfl).1 2 5 rfl rfl (Or.inr (Or.inl rfl))
  · exact (c2_amended_change_logging envId itemA (dirOf "a.c" (JSValue.num 3) "add")
      actorA rfl rfl).2.1 3 rfl rfl (Or.inr (Or.inl rfl))
  · exact (c2_amended_change_logging envId itemA (dirOf "a.b" (JSValue.num 7) "override")
      actorA rfl rfl).2.2.2.1 (JSValue.num 7) rfl rfl rfl

end AELike
